import Mathlib

/-!
Shallow embedding of the `ripoff` CD-ripper (src/main.rs, src/mb.rs) and
proofs about its specified behaviour.  Pure fragments of the Rust source are
translated into executable Lean definitions; fallible operations become
`Except`, the interactive collaborators become function parameters, and the
filesystem becomes an explicit small state.
-/

namespace Ripoff

/-! ## Filename sanitizer (src/main.rs, `PathSanitizer`, lines 33-58) -/

/-- The six characters matched by the NTFS/strict sanitizer
(`AhoCorasick::new(["/", ":", "?", "\"", "|", "*"])`, main.rs line 44). -/
def ntfsPatterns : List Char := ['/', ':', '?', '"', '|', '*']

/-- Per-character substitution performed by the default sanitizer:
`filename.replace("/", "\u{2215}")` (main.rs line 49).  The pattern is a
single character, so the whole-string `replace` is exactly a character map. -/
def defaultSubst (c : Char) : Char :=
  if c = '/' then Char.ofNat 0x2215 else c

/-- Per-character substitution performed by the NTFS sanitizer
(main.rs lines 50-55): the Aho-Corasick automaton over the six single-character
patterns replaces, in one simultaneous left-to-right pass, each occurrence of
the i-th pattern by the i-th replacement string.  All patterns are distinct
single characters, so the pass is exactly this character map. -/
def ntfsSubst (c : Char) : Char :=
  if c = '/' then Char.ofNat 0x2215
  else if c = ':' then Char.ofNat 0x02d0
  else if c = '?' then Char.ofNat 0x0294
  else if c = '"' then Char.ofNat 0x00a8
  else if c = '|' then Char.ofNat 0x01c0
  else if c = '*' then Char.ofNat 0x04ff
  else c

/-- The two sanitizer policies (`enum PathSanitizer`, main.rs lines 33-36). -/
inductive PathSanitizer
  | Default
  | Ntfs
deriving DecidableEq, Repr

/-- `PathSanitizer::map` (main.rs lines 47-57). -/
def PathSanitizer.map (p : PathSanitizer) (filename : String) : String :=
  match p with
  | .Default => String.mk (filename.data.map defaultSubst)
  | .Ntfs => String.mk (filename.data.map ntfsSubst)

/-- Sanitizer selection from the CLI flag (main.rs lines 63-67).  Note the
source selects `PathSanitizer::default()` when `ntfs_filenames` is SET and
`PathSanitizer::ntfs()` when it is not. -/
def selectSanitizer (ntfs_filenames : Bool) : PathSanitizer :=
  if ntfs_filenames then .Default else .Ntfs

lemma ntfsSubst_not_pattern (c : Char) : ntfsSubst c ∉ ntfsPatterns := by
  unfold ntfsSubst ntfsPatterns
  split_ifs <;> simp_all

lemma ntfsSubst_id_of_not_pattern (c : Char) (h : c ∉ ntfsPatterns) :
    ntfsSubst c = c := by
  simp [ntfsPatterns] at h
  simp [ntfsSubst, h.1, h.2.1, h.2.2.1, h.2.2.2.1, h.2.2.2.2.1, h.2.2.2.2.2]

lemma defaultSubst_ne_slash (c : Char) : defaultSubst c ≠ '/' := by
  unfold defaultSubst
  split_ifs <;> simp_all

lemma defaultSubst_id_of_ne_slash (c : Char) (h : c ≠ '/') :
    defaultSubst c = c := by
  simp [defaultSubst, h]

lemma defaultSubst_idem (c : Char) :
    defaultSubst (defaultSubst c) = defaultSubst c :=
  defaultSubst_id_of_ne_slash _ (defaultSubst_ne_slash c)

lemma ntfsSubst_idem (c : Char) :
    ntfsSubst (ntfsSubst c) = ntfsSubst c :=
  ntfsSubst_id_of_not_pattern _ (ntfsSubst_not_pattern c)

/-! ## Metadata model (src/mb.rs), restricted to the fields main.rs reads -/

/-- An artist credit: `name` and `joinphrase` (mb.rs `ArtistCredit`). -/
structure ArtistCredit where
  name : String
  joinphrase : String
deriving DecidableEq, Repr

/-- A label-info entry; main.rs reads only the catalog number. -/
structure LabelInfo where
  catalog_number : String
deriving DecidableEq, Repr

/-- A track within a medium; main.rs reads only the title. -/
structure Track where
  title : String
deriving DecidableEq, Repr

/-- A medium (`Media` in mb.rs): main.rs reads `position`, the embedded disc
ids and the track list. -/
structure Media where
  position : Nat
  disc_ids : List String
  tracks : List Track
deriving DecidableEq, Repr

/-- A candidate release, restricted to the fields main.rs reads. -/
structure Release where
  id : String
  title : String
  artist_credit : List ArtistCredit
  label_info : List LabelInfo
  barcode : Option String
  media : List Media
deriving DecidableEq, Repr

/-- `Release::artist_string` (mb.rs lines 98-103): concatenate, for each
credit in order, the credit name immediately followed by the joinphrase,
with no added separators. -/
def Release.artist_string (r : Release) : String :=
  String.join (r.artist_credit.map fun credit => credit.name ++ credit.joinphrase)

/-- Errors of the fatal failure points of the pipeline modelled here.
`noReleaseFound` carries the message printed by `bail!` (main.rs line 81);
`trackCountMismatch` models the fatal index-out-of-bounds abort at
main.rs line 180. -/
inductive RipError
  | noReleaseFound (message : String)
  | trackCountMismatch
deriving DecidableEq, Repr

/-- The per-release summary shown by the selection prompt
(main.rs lines 84-106). -/
def releaseSummary (r : Release) : String :=
  "MBID: " ++ r.id ++
  "\n  - Artist: " ++ r.artist_string ++
  "\n  - Title: " ++ r.title ++
  "\n  - Catalog Number: " ++ ((r.label_info.head?.map LabelInfo.catalog_number).getD "") ++
  "\n  - Barcode: " ++ r.barcode.getD ""

/-- Release lookup and interactive selection (main.rs lines 80-114).  The
interactive `Select` collaborator is the function `prompt`; the returned
`Bool` records whether the prompt was invoked.  An empty release list hits
`bail!("No release found ...")` (lines 80-82) before the prompt (line 110). -/
def selectRelease (releases : List Release) (prompt : List String → Nat) :
    (Except RipError Nat) × Bool :=
  if releases.isEmpty then
    (.error (.noReleaseFound
      "No release found with this MBID. Please submit it to the database."), false)
  else
    (.ok (prompt (releases.map releaseSummary)), true)

/-! ## Output file names (main.rs lines 115, 182-189) -/

/-- The Rust `{:02}` format for an unsigned value: zero-pad to width 2. -/
def pad2 (n : Nat) : String :=
  if n < 10 then "0" ++ toString n else toString n

/-- Per-track output file name (main.rs lines 182-189).  `multi_disc` is
`selected_release.media.len() > 1` (line 115).  The title is used verbatim —
the source does not pass it through the sanitizer. -/
def fileName (multi_disc : Bool) (medium_position : Nat) (track_num : Nat)
    (title : String) : String :=
  if multi_disc then
    toString medium_position ++ "-" ++ pad2 track_num ++ " " ++ title ++ ".flac"
  else
    pad2 track_num ++ " " ++ title ++ ".flac"

/-- The file name as the specification words it ("Append the sanitized track
title"): identical to `fileName` except that the selected sanitizer is applied
to the title.  Stated only for comparison against the source's `fileName`. -/
def fileNameSpec (sanitizer : PathSanitizer) (multi_disc : Bool)
    (medium_position : Nat) (track_num : Nat) (title : String) : String :=
  if multi_disc then
    toString medium_position ++ "-" ++ pad2 track_num ++ " " ++
      sanitizer.map title ++ ".flac"
  else
    pad2 track_num ++ " " ++ sanitizer.map title ++ ".flac"

/-! ## Track title lookup (main.rs line 180) -/

/-- `&mb_disc_info.tracks[track_num as usize - 1]`: an in-range index yields
the track; an out-of-range index panics in the source, aborting the whole run
— modelled as the fatal `trackCountMismatch` error. -/
def lookupTrack (m : Media) (track_num : Nat) : Except RipError Track :=
  match m.tracks.get? (track_num - 1) with
  | some t => .ok t
  | none => .error .trackCountMismatch

/-! ## Sector arithmetic and duration (main.rs lines 18, 173-178) -/

/-- `CD_SAMPLE_RATE` (main.rs line 18). -/
def CD_SAMPLE_RATE : Nat := 44100

/-- Reinterpret a signed value as a `u32` (the `as u32` cast on line 178);
4294967296 = 2^32. -/
def u32cast (x : Int) : Nat := (x % 4294967296).toNat

/-- `total_sectors = last_sector - first_sector + 1` (main.rs line 175),
computed in signed arithmetic with no validation. -/
def totalSectors (first_sector last_sector : Int) : Int :=
  last_sector - first_sector + 1

/-- `total_sectors as u32 * CD_FRAMEWORDS / (CD_SAMPLE_RATE * track_channels)`
(main.rs lines 177-178), in wrapping `u32` arithmetic.  `CD_FRAMEWORDS` is a
constant of the external cdparanoia crate, so it is a parameter here. -/
def trackDuration (total_sectors : Int) (frame_words channels : Nat) : Nat :=
  u32cast total_sectors * frame_words % 4294967296 /
    (CD_SAMPLE_RATE * channels % 4294967296)

/-- Number of iterations of the sector loop
`for _ in first_sector..=last_sector` (main.rs line 212): zero when the range
is empty. -/
def sectorReads (first_sector last_sector : Int) : Nat :=
  (last_sector + 1 - first_sector).toNat

/-! ## Sample widening (main.rs lines 209-215): `*dst = (*src).into()`
widens each native `i16` sample to the encoder's `i32` input.  Samples are
modelled by their 16- and 32-bit patterns as naturals below `2^16` / `2^32`. -/

/-- Signed value of a 16-bit pattern (32768 = 2^15, 65536 = 2^16). -/
def int16Val (w : Nat) : Int :=
  if w < 32768 then (w : Int) else (w : Int) - 65536

/-- Signed value of a 32-bit pattern (2147483648 = 2^31, 4294967296 = 2^32). -/
def int32Val (w : Nat) : Int :=
  if w < 2147483648 then (w : Int) else (w : Int) - 4294967296

/-- `i16 → i32` conversion (`Into::into` on line 215): sign extension of the
16-bit pattern to a 32-bit pattern (4294901760 = 2^32 - 2^16). -/
def widen16to32 (w : Nat) : Nat :=
  if w < 32768 then w else w + 4294901760

/-! ## Album directory preparation (main.rs lines 128-140) and run ordering.
The album directory is modelled as `Option (List String)`: `none` when it
does not exist, `some files` for its contents when it does. -/

/-- Observable events of the run, in order: filesystem operations on the
album directory, opening the drive (main.rs lines 142-149), and ripping each
track (the loop at lines 165-243). -/
inductive FsEvent
  | removeDirAll
  | createDirAll
  | openDrive
  | ripTrack (track_num : Nat)
deriving DecidableEq, Repr

/-- `std::fs::create_dir_all`: creates the directory when absent; an existing
directory and its contents are left untouched. -/
def createDirAllFs : Option (List String) → Option (List String)
  | none => some []
  | some fs => some fs

/-- Album directory preparation (main.rs lines 129-140): when the directory
exists, ask the confirmation collaborator (whose answer is `confirm`); on
`true` remove the directory recursively; then unconditionally
`create_dir_all`.  Returns the resulting directory state and the filesystem
events performed. -/
def prepareAlbumDir (dir : Option (List String)) (confirm : Bool) :
    Option (List String) × List FsEvent :=
  let step :=
    if dir.isSome then
      if confirm then ((none : Option (List String)), [FsEvent.removeDirAll])
      else (dir, ([] : List FsEvent))
    else (dir, [])
  (createDirAllFs step.1, step.2 ++ [FsEvent.createDirAll])

/-- Event order of a run (main.rs lines 128-243): directory preparation, then
drive open, then one rip per track, in track order. -/
def runTrace (dir : Option (List String)) (confirm : Bool) (track_count : Nat) :
    List FsEvent :=
  (prepareAlbumDir dir confirm).2 ++ FsEvent.openDrive ::
    (List.range track_count).map (fun i => FsEvent.ripTrack (i + 1))

/-! ## The per-track extraction step (main.rs lines 171-189) -/

/-- The data computed for one audio track before ripping it. -/
structure TrackPlan where
  total_sectors : Int
  duration : Nat
  file_name : String
  sector_reads : Nat
deriving DecidableEq, Repr

/-- The pure skeleton of one iteration of the track loop
(main.rs lines 171-189): compute `total_sectors` (unvalidated), the duration,
look up the track title (a fatal failure when out of range), and build the
file name.  `sector_reads` is the iteration count of the sector loop. -/
def extractTrack (multi_disc : Bool) (m : Media) (frame_words : Nat)
    (first_sector last_sector : Int) (channels track_num : Nat) :
    Except RipError TrackPlan :=
  let ts := totalSectors first_sector last_sector
  match lookupTrack m track_num with
  | .error e => .error e
  | .ok t => .ok {
      total_sectors := ts
      duration := trackDuration ts frame_words channels
      file_name := fileName multi_disc m.position track_num t.title
      sector_reads := sectorReads first_sector last_sector }

/-! ## Claims -/

/-- C1: the claim states that setting the `ntfs_filenames` flag selects the
Strict policy and leaving it unset selects the Default policy.  Evaluating the
selection embedded from main.rs lines 63-67 at the failing input
`ntfs_filenames = true` shows the source does the opposite: the flag set
yields the Default sanitizer (which leaves a colon unchanged) and the flag
unset yields the Strict one. -/
theorem C1_selection_inverted :
    selectSanitizer true = PathSanitizer.Default ∧
    selectSanitizer false = PathSanitizer.Ntfs ∧
    (selectSanitizer true).map "a:b" = "a:b" ∧
    (selectSanitizer false).map "a:b" =
      String.mk ['a', Char.ofNat 0x02d0, 'b'] := by
  refine ⟨rfl, rfl, by decide, by decide⟩

/-- C2 counterexample: the claim states the track title is passed through the
selected sanitizer before being appended to the file name.  At the concrete
title "A/B" (track 7, single medium) the source yields "07 A/B.flac" with the
raw slash, while the sanitized construction differs under either policy. -/
theorem C2_counterexample :
    fileName false 1 7 "A/B" = "07 A/B.flac" ∧
    fileNameSpec (selectSanitizer true) false 1 7 "A/B" ≠ fileName false 1 7 "A/B" ∧
    fileNameSpec (selectSanitizer false) false 1 7 "A/B" ≠ fileName false 1 7 "A/B" := by
  refine ⟨by decide, by decide, by decide⟩

/-- C2 amended: the per-track file name is the medium position, "-", the
2-digit zero-padded track number, a space, the UNsanitized track title, and
".flac" when the release has more than one medium, and the same without the
medium prefix when it has exactly one; in particular the two file-name
examples of the specification hold. -/
theorem C2_track_file_name (pos n : Nat) (t : String) (hn : n < 100) :
    fileName true pos n t =
      toString pos ++ "-" ++ pad2 n ++ " " ++ t ++ ".flac" ∧
    fileName false pos n t = pad2 n ++ " " ++ t ++ ".flac" ∧
    (pad2 n).length = 2 ∧
    fileName false 1 7 "Interlude" = "07 Interlude.flac" ∧
    fileName true 2 3 "Coda" = "2-03 Coda.flac" := by
  refine ⟨rfl, rfl, ?_, by decide, by decide⟩
  interval_cases n <;> decide

/-- Witness for C2_track_file_name at pos = 2, n = 3, t = "Coda". -/
theorem C2_track_file_name_witness :
    fileName true 2 3 "Coda" = "2-03 Coda.flac" ∧ (pad2 3).length = 2 :=
  ⟨(C2_track_file_name 2 3 "Coda" (by decide)).2.2.2.2,
   (C2_track_file_name 2 3 "Coda" (by decide)).2.2.1⟩

/-- C3 counterexample: the claim states the extraction fails with a fatal
InvalidTrackRange error whenever total_sectors is zero or negative, and rips
only when it is at least 1.  At first_sector = 5, last_sector = 3 the source
computes total_sectors = -1 and the extraction step nevertheless succeeds:
no range validation exists in the source. -/
theorem C3_counterexample :
    totalSectors 5 3 = -1 ∧
    extractTrack false ⟨1, ["X"], [⟨"T"⟩]⟩ 1176 5 3 2 1 =
      .ok ⟨-1, trackDuration (-1) 1176 2, "01 T.flac", 0⟩ := by
  refine ⟨by decide, rfl⟩

/-- C3 amended: total_sectors = last_sector - first_sector + 1 is computed
but never validated: whenever the title lookup succeeds, the extraction step
succeeds for every sector range (including zero and negative total_sectors),
and the per-sector loop simply runs zero times when total_sectors ≤ 0. -/
theorem C3_no_range_validation (m : Media) (md : Bool) (fw : Nat)
    (first last : Int) (ch n : Nat) (t : Track)
    (h : lookupTrack m n = .ok t) :
    extractTrack md m fw first last ch n =
      .ok ⟨totalSectors first last,
           trackDuration (totalSectors first last) fw ch,
           fileName md m.position n t.title,
           sectorReads first last⟩ ∧
    totalSectors first last = last - first + 1 ∧
    (totalSectors first last ≤ 0 → sectorReads first last = 0) := by
  refine ⟨?_, rfl, ?_⟩
  · simp [extractTrack, h]
  · intro hle
    unfold totalSectors at hle
    unfold sectorReads
    omega

/-- Witness for C3_no_range_validation at an empty sector range. -/
theorem C3_no_range_validation_witness :
    extractTrack false ⟨1, ["X"], [⟨"T"⟩]⟩ 1176 10 9 2 1 =
      .ok ⟨totalSectors 10 9, trackDuration (totalSectors 10 9) 1176 2,
           fileName false 1 1 "T", sectorReads 10 9⟩ ∧
    sectorReads 10 9 = 0 := by
  have h := C3_no_range_validation ⟨1, ["X"], [⟨"T"⟩]⟩ false 1176 10 9 2 1 ⟨"T"⟩ rfl
  exact ⟨h.1, h.2.2 (by decide)⟩

/-- C4: a 1-based physical track number exceeding the number of entries in
the track sequence of the matched medium fails fatally (the index abort at
main.rs line 180, modelled as trackCountMismatch); an in-range track number n
yields the track at index n - 1. -/
theorem C4_track_lookup (m : Media) (n : Nat) (h1 : 1 ≤ n) :
    (m.tracks.length < n → lookupTrack m n = .error .trackCountMismatch) ∧
    (∀ h : n - 1 < m.tracks.length,
      lookupTrack m n = .ok (m.tracks.get ⟨n - 1, h⟩)) := by
  constructor
  · intro hgt
    unfold lookupTrack
    have hnone : m.tracks.get? (n - 1) = none := by
      rw [List.get?_eq_none]
      omega
    rw [hnone]
  · intro h
    unfold lookupTrack
    rw [List.get?_eq_get h]

/-- Witness for C4_track_lookup on a two-track medium at track numbers 3
(out of range) and 2 (in range). -/
theorem C4_track_lookup_witness :
    lookupTrack ⟨1, ["X"], [⟨"A"⟩, ⟨"B"⟩]⟩ 3 = .error .trackCountMismatch ∧
    lookupTrack ⟨1, ["X"], [⟨"A"⟩, ⟨"B"⟩]⟩ 2 = .ok ⟨"B"⟩ := by
  refine ⟨(C4_track_lookup ⟨1, ["X"], [⟨"A"⟩, ⟨"B"⟩]⟩ 3 (by decide)).1 (by decide), ?_⟩
  have h := (C4_track_lookup ⟨1, ["X"], [⟨"A"⟩, ⟨"B"⟩]⟩ 2 (by decide)).2 (by decide)
  simpa using h

/-- C5: a release graph with zero candidate releases fails with
noReleaseFound, carrying the specific actionable message of main.rs line 81,
and the interactive selection prompt is not invoked; the prompt is invoked
exactly when the release list is nonempty. -/
theorem C5_empty_graph_short_circuits (prompt : List String → Nat) :
    selectRelease [] prompt =
      (.error (.noReleaseFound
        "No release found with this MBID. Please submit it to the database."),
       false) ∧
    ∀ rs : List Release, rs ≠ [] → (selectRelease rs prompt).2 = true := by
  refine ⟨rfl, ?_⟩
  intro rs h
  simp [selectRelease, h]

/-- Witness for C5_empty_graph_short_circuits with a constant prompt and a
one-release graph. -/
theorem C5_empty_graph_short_circuits_witness :
    (selectRelease [⟨"mbid", "T", [], [], none, []⟩] (fun _ => 0)).2 = true :=
  (C5_empty_graph_short_circuits (fun _ => 0)).2 [⟨"mbid", "T", [], [], none, []⟩]
    (by simp)

/-- C6: both sanitizers are total deterministic functions of the input.  The
Default output contains no slash (the output is exactly the character map
sending a slash to U+2215 and every other character to itself); the Ntfs
output contains none of the six pattern characters (it is exactly the
simultaneous character map of the six distinct substitutes). -/
theorem C6_sanitizer_outputs (s : String) :
    (∀ c ∈ (PathSanitizer.Default.map s).data, c ≠ '/') ∧
    (∀ c ∈ (PathSanitizer.Ntfs.map s).data, c ∉ ntfsPatterns) ∧
    (PathSanitizer.Default.map s).data = s.data.map defaultSubst ∧
    (PathSanitizer.Ntfs.map s).data = s.data.map ntfsSubst ∧
    defaultSubst '/' = Char.ofNat 0x2215 ∧
    (∀ c, c ≠ '/' → defaultSubst c = c) ∧
    (ntfsPatterns.map ntfsSubst).Nodup := by
  refine ⟨?_, ?_, rfl, rfl, rfl,
    fun c hc => defaultSubst_id_of_ne_slash c hc, by decide⟩
  · intro c hc
    simp only [PathSanitizer.map, List.mem_map] at hc
    obtain ⟨a, _, ha⟩ := hc
    exact ha ▸ defaultSubst_ne_slash a
  · intro c hc
    simp only [PathSanitizer.map, List.mem_map] at hc
    obtain ⟨a, _, ha⟩ := hc
    exact ha ▸ ntfsSubst_not_pattern a

/-- Witness for C6_sanitizer_outputs on the input "a/b". -/
theorem C6_sanitizer_outputs_witness :
    Char.ofNat 0x2215 ∉ ntfsPatterns ∧ defaultSubst 'a' = 'a' :=
  ⟨(C6_sanitizer_outputs "a/b").2.1 (Char.ofNat 0x2215) (by decide),
   (C6_sanitizer_outputs "a/b").2.2.2.2.2.1 'a' (by decide)⟩

/-- C7: with an existing album directory, a declined confirmation leaves the
directory state unchanged and performs no removal, and ripping proceeds into
the existing directory; an accepted confirmation removes the directory
recursively and recreates it empty; in either case all filesystem events of
the preparation precede the drive-open event, which precedes every per-track
rip event. -/
theorem C7_overwrite_behavior (files : List String) (tc : Nat) :
    (prepareAlbumDir (some files) false).1 = some files ∧
    FsEvent.removeDirAll ∉ (prepareAlbumDir (some files) false).2 ∧
    (prepareAlbumDir (some files) true).2 =
      [FsEvent.removeDirAll, FsEvent.createDirAll] ∧
    (prepareAlbumDir (some files) true).1 = some [] ∧
    (∀ confirm : Bool,
      runTrace (some files) confirm tc =
        (prepareAlbumDir (some files) confirm).2 ++ FsEvent.openDrive ::
          (List.range tc).map (fun i => FsEvent.ripTrack (i + 1)) ∧
      ∀ e ∈ (prepareAlbumDir (some files) confirm).2,
        e = FsEvent.removeDirAll ∨ e = FsEvent.createDirAll) := by
  refine ⟨rfl, by simp [prepareAlbumDir], rfl, rfl, ?_⟩
  intro confirm
  refine ⟨rfl, ?_⟩
  intro e he
  cases confirm <;> simp [prepareAlbumDir] at he <;> simp [he]

/-- Witness for C7_overwrite_behavior with one existing file and two tracks,
at the accepting confirmation. -/
theorem C7_overwrite_behavior_witness :
    (prepareAlbumDir (some ["old.flac"]) false).1 = some ["old.flac"] ∧
    (FsEvent.createDirAll = FsEvent.removeDirAll ∨
      FsEvent.createDirAll = FsEvent.createDirAll) :=
  ⟨(C7_overwrite_behavior ["old.flac"] 2).1,
   ((C7_overwrite_behavior ["old.flac"] 2).2.2.2.2 true).2 FsEvent.createDirAll
     (by decide)⟩

/-- C8: widening a native 16-bit sample to the 32-bit encoder input is exact
sign-preserving integer extension for every 16-bit pattern, including the
boundary values -32768 (pattern 0x8000) and 32767 (pattern 0x7fff). -/
theorem C8_widen_exact (w : Nat) (h : w < 65536) :
    int32Val (widen16to32 w) = int16Val w ∧
    widen16to32 w < 4294967296 ∧
    int16Val 0x8000 = -32768 ∧ int32Val (widen16to32 0x8000) = -32768 ∧
    int16Val 0x7fff = 32767 ∧ int32Val (widen16to32 0x7fff) = 32767 := by
  refine ⟨?_, ?_, by decide, by decide, by decide, by decide⟩
  · unfold int32Val int16Val widen16to32
    split_ifs <;> push_cast <;> omega
  · unfold widen16to32
    split_ifs <;> omega

/-- Witness for C8_widen_exact at the minimum 16-bit sample. -/
theorem C8_widen_exact_witness :
    int32Val (widen16to32 0x8000) = -32768 :=
  (C8_widen_exact 0x8000 (by decide)).2.2.2.1

/-- C9: the track duration is total_sectors * frame_words / (44100 *
channels) in truncating integer arithmetic (the wrapping u32 computation of
the source coincides with this whenever the products fit in 32 bits), the
sample rate constant is 44100, and at total_sectors = 1000, frame_words =
588, channels = 2 the result is exactly 6. -/
theorem C9_duration_formula (ts fw ch : Nat) (h0 : ts < 4294967296)
    (h1 : ts * fw < 4294967296) (h2 : 44100 * ch < 4294967296) :
    trackDuration (ts : Int) fw ch = ts * fw / (44100 * ch) ∧
    CD_SAMPLE_RATE = 44100 ∧
    trackDuration 1000 588 2 = 6 := by
  refine ⟨?_, rfl, by decide⟩
  unfold trackDuration CD_SAMPLE_RATE
  have hcast : u32cast (ts : Int) = ts := by
    unfold u32cast
    omega
  rw [hcast, Nat.mod_eq_of_lt h1, Nat.mod_eq_of_lt h2]

/-- Witness for C9_duration_formula at the values of the specification
example. -/
theorem C9_duration_formula_witness :
    trackDuration ((1000 : Nat) : Int) 588 2 = 1000 * 588 / (44100 * 2) :=
  (C9_duration_formula 1000 588 2 (by decide) (by decide) (by decide)).1

/-- C10: both sanitizer policies are idempotent: sanitizing an already
sanitized string changes nothing, because no substitute character is itself
among the characters the policy replaces. -/
theorem C10_sanitizer_idempotent (p : PathSanitizer) (s : String) :
    p.map (p.map s) = p.map s := by
  cases p <;>
    simp [PathSanitizer.map, List.map_map, Function.comp_def,
      defaultSubst_idem, ntfsSubst_idem]

end Ripoff
